import Mathlib

/-!
Shallow embedding of the GLoan-App backend (src/server.js).

The server is a set of Express handlers over Firebase Auth and Firestore.
We model:
  * JavaScript request-body values as `JSVal` (with JS truthiness, so that
    guards like `if (!status)` and coercions like `repayment || null` are
    rendered faithfully);
  * the Firestore document tree as association lists: the per-user loan
    collection `artifacts/APP_ID/users/{uid}/loanApplications/{id}`, the
    global collection `artifacts/APP_ID/public/data/allApplications/{id}`,
    the per-user profile documents, and the Firebase Auth user records;
  * `FieldValue.serverTimestamp()` as the store-side commit counter `clock`:
    each committed write resolves the sentinel to the current counter and
    advances it, matching Firestore resolving each sentinel at the commit
    time of its own write;
  * `DocumentReference.update` failing with NOT_FOUND when the document does
    not exist (caught by the handler's try/catch, surfacing as a 500 via
    `handleError`);
  * the `verifyToken` middleware as a combinator over an abstract
    `verify : token → Option uid` identity-provider contract.

The `updateStatus` handler additionally returns the ordered trace of store
operations it issued, so that claims about sequencing inside one request can
be stated.
-/

namespace GLoan

/-- A JavaScript value as it appears in a JSON request body or a Firestore
document field. -/
inductive JSVal where
  | vNull
  | vUndefined
  | vBool (b : Bool)
  | vNum (n : Int)
  | vStr (s : String)
deriving DecidableEq, Repr

/-- JavaScript truthiness, as used by guards such as `if (!status)`. -/
def JSVal.truthy : JSVal → Bool
  | .vNull => false
  | .vUndefined => false
  | .vBool b => b
  | .vNum n => n != 0
  | .vStr s => s != ""

/-- The JavaScript `a || b` operator restricted to returning `b` when `a` is
falsy, as in `repayment || null`. -/
def jsOr (a b : JSVal) : JSVal := if a.truthy then a else b

/-- String rendering used for template interpolation in response messages. -/
def JSVal.display : JSVal → String
  | .vNull => "null"
  | .vUndefined => "undefined"
  | .vBool b => if b then "true" else "false"
  | .vNum n => toString n
  | .vStr s => s

/-- Association-list lookup (document fetch by id). -/
def alookup {α β : Type} [DecidableEq α] : List (α × β) → α → Option β
  | [], _ => none
  | (k1, v) :: t, k => if k1 = k then some v else alookup t k

/-- Association-list store (document set by id, replacing any existing doc). -/
def aset {α β : Type} [DecidableEq α] : List (α × β) → α → β → List (α × β)
  | [], k, v => [(k, v)]
  | (k1, v1) :: t, k, v => if k1 = k then (k, v) :: t else (k1, v1) :: aset t k v

/-- A loan-application document.  `repayment = none` means the field is
absent (creation does not write it); `some r` means the field is present
with JS value `r`.  `applicationId` is present only on the global copy. -/
structure LoanDoc where
  userId : JSVal
  loanType : JSVal
  purpose : JSVal
  panNumber : JSVal
  requestedLoanAmount : JSVal
  monthlyEmi : JSVal
  totalInterest : JSVal
  principalAmount : JSVal
  totalAmountPayable : JSVal
  idProofFileName : JSVal
  status : JSVal
  appliedDate : Nat
  repayment : Option JSVal
  applicationId : Option String
deriving DecidableEq, Repr

/-- A per-user profile document written at signup. -/
structure Profile where
  email : JSVal
  mobile : JSVal
  createdAt : Nat
deriving DecidableEq, Repr

/-- A Firebase Auth account record created by `auth.createUser`. -/
structure AuthUser where
  uid : String
  email : JSVal
  password : JSVal
  phoneNumber : JSVal
deriving DecidableEq, Repr

/-- The external state the handlers act on: identity-provider accounts and
the Firestore document tree, plus the id-generation counter and the store
commit clock that resolves `serverTimestamp()` sentinels. -/
structure Store where
  authUsers : List AuthUser
  userProfiles : List (String × Profile)
  userApps : List ((String × String) × LoanDoc)
  globalApps : List (String × LoanDoc)
  nextId : Nat
  clock : Nat
deriving DecidableEq, Repr

/-- HTTP responses the handlers produce, keeping the JSON message text. -/
inductive Response where
  | created (msg : String) (applicationId : String)
  | createdUser (msg : String) (uid : String)
  | okMsg (msg : String)
  | badRequest (msg : String)
  | unauthorized (msg : String)
  | conflict (msg : String)
  | serverError (msg : String)
deriving DecidableEq, Repr

/-- The HTTP status code of a response. -/
def Response.code : Response → Nat
  | .created _ _ => 201
  | .createdUser _ _ => 201
  | .okMsg _ => 200
  | .badRequest _ => 400
  | .unauthorized _ => 401
  | .conflict _ => 409
  | .serverError _ => 500

/-- Store operations issued by the status-update handler, in issue order. -/
inductive Op where
  | updateGlobal (id : String)
  | readGlobal (id : String)
  | updateUser (uid : String) (id : String)
deriving DecidableEq, Repr

/-- Result of the status-update handler: final store, HTTP response, and the
ordered trace of store operations issued during the request. -/
structure UpdResult where
  store : Store
  resp : Response
  trace : List Op
deriving DecidableEq, Repr

/-- Request body of POST /api/signup. -/
structure SignupBody where
  email : JSVal
  password : JSVal
  mobile : JSVal
deriving DecidableEq, Repr

/-- Request body of POST /api/apply-loan.  A `status` member is included
because a client may submit one; the handler destructures only the named
fields and never reads it. -/
structure ApplyBody where
  loanType : JSVal
  purpose : JSVal
  panNumber : JSVal
  requestedLoanAmount : JSVal
  monthlyEmi : JSVal
  totalInterest : JSVal
  principalAmount : JSVal
  totalAmountPayable : JSVal
  idProofFileName : JSVal
  status : JSVal
deriving DecidableEq, Repr

/-- Whether some Auth account already holds this email
(`auth/email-already-in-use`). -/
def emailInUse (users : List AuthUser) (e : JSVal) : Bool :=
  users.any (fun u => u.email = e)

/-- POST /api/signup (server.js lines 43-71): validate the three fields,
create the Auth account, then write the profile document. -/
def signup (body : SignupBody) (s : Store) : Store × Response :=
  if !body.email.truthy || !body.password.truthy || !body.mobile.truthy then
    (s, .badRequest "Email, password, and mobile are required.")
  else if emailInUse s.authUsers body.email then
    (s, .conflict "Email already registered.")
  else
    let uid := "uid-" ++ toString s.nextId
    let s1 : Store :=
      { s with
        authUsers :=
          { uid := uid, email := body.email, password := body.password,
            phoneNumber := body.mobile } :: s.authUsers,
        userProfiles :=
          aset s.userProfiles uid
            { email := body.email, mobile := body.mobile, createdAt := s.clock },
        nextId := s.nextId + 1,
        clock := s.clock + 1 }
    (s1, .createdUser "User created successfully!" uid)

/-- Strip `sep` from the front of a character list, returning the remainder
when it is a prefix. -/
def stripSep : List Char → List Char → Option (List Char)
  | [], r => some r
  | _, [] => none
  | s :: ss, c :: cs => if s = c then stripSep ss cs else none

/-- Locate the leftmost occurrence of `sep`: the characters before it and
the characters after it. -/
def splitFirst (sep : List Char) : List Char → Option (List Char × List Char)
  | [] => none
  | c :: cs =>
    match stripSep sep (c :: cs) with
    | some rest => some ([], rest)
    | none =>
      match splitFirst sep cs with
      | some (b, a) => some (c :: b, a)
      | none => none

/-- Element `[1]` of the JavaScript `String.prototype.split(sep)` result for
a non-empty separator: the segment between the first occurrence of `sep` and
the following occurrence (or the end); `none` when `sep` does not occur, as
indexing past the array yields `undefined`. -/
def jsSplitSecond (sep l : List Char) : Option (List Char) :=
  match splitFirst sep l with
  | none => none
  | some (_, rest) =>
    match splitFirst sep rest with
    | none => some rest
    | some (b, _) => some b

/-- `req.headers.authorization?.split('Bearer ')[1]` (server.js line 75). -/
def extractToken : Option String → Option String
  | none => none
  | some h => (jsSplitSecond "Bearer ".data h.data).map List.asString

/-- The `verifyToken` middleware (server.js lines 74-90): 401 when no token
survives extraction (the `!idToken` truthiness check also rejects the empty
string), otherwise verify it against the identity provider; a verification
failure is routed through `handleError`, hence a 500 response, and the
wrapped handler never runs. -/
def withAuth (verify : String → Option String)
    (handler : String → Store → Store × Response)
    (authHeader : Option String) (s : Store) : Store × Response :=
  match extractToken authHeader with
  | none => (s, .unauthorized "No token provided.")
  | some tk =>
    if tk = "" then (s, .unauthorized "No token provided.")
    else
      match verify tk with
      | none => (s, .serverError "Invalid or expired token.")
      | some uid => handler uid s

/-- POST /api/apply-loan, body of the handler after `verifyToken` (server.js
lines 93-140): validate the four required fields, `add` the per-user
document (generating the id), then `set` the global copy at the same id
with the id stored inline.  Each of the two writes resolves its own
`serverTimestamp()` sentinel at its own commit time. -/
def applyLoanHandler (body : ApplyBody) (uid : String) (s : Store) :
    Store × Response :=
  if !body.loanType.truthy || !body.purpose.truthy || !body.panNumber.truthy
      || !body.requestedLoanAmount.truthy then
    (s, .badRequest "Missing required loan application fields.")
  else
    let i := "app-" ++ toString s.nextId
    let ud : LoanDoc :=
      { userId := .vStr uid, loanType := body.loanType, purpose := body.purpose,
        panNumber := body.panNumber,
        requestedLoanAmount := body.requestedLoanAmount,
        monthlyEmi := body.monthlyEmi, totalInterest := body.totalInterest,
        principalAmount := body.principalAmount,
        totalAmountPayable := body.totalAmountPayable,
        idProofFileName := body.idProofFileName, status := .vStr "Pending",
        appliedDate := s.clock, repayment := none, applicationId := none }
    let gd : LoanDoc := { ud with appliedDate := s.clock + 1, applicationId := some i }
    let s2 : Store :=
      { s with
        userApps := aset s.userApps (uid, i) ud,
        globalApps := aset s.globalApps i gd,
        nextId := s.nextId + 1,
        clock := s.clock + 2 }
    (s2, .created "Loan application submitted successfully!" i)

/-- POST /api/apply-loan including the `verifyToken` middleware. -/
def applyLoanRoute (verify : String → Option String) (authHeader : Option String)
    (body : ApplyBody) (s : Store) : Store × Response :=
  withAuth verify (applyLoanHandler body) authHeader s

/-- Success message of the status-update handler, interpolating the id and
the status as the source template literal does. -/
def okStatusMsg (id : String) (status : JSVal) : String :=
  "Application " ++ id ++ " status updated to " ++ status.display ++ "."

/-- PUT /api/admin/applications/:id/status, body of the handler after
`verifyToken` (server.js lines 175-207): reject a falsy `status` with 400;
`update` the global copy (NOT_FOUND when absent is caught and surfaces as a
500); then `get` the global copy back and, when `appData && appData.userId`
is truthy, `update` the per-user copy (`.doc(appData.userId)` needs a string
path and the user-copy `update` again fails with NOT_FOUND when that
document is absent, both caught as 500).  Both updates write
`{ status: status, repayment: repayment || null }`. -/
def updateStatus (s : Store) (id : String) (status repayment : JSVal) :
    UpdResult :=
  if !status.truthy then ⟨s, .badRequest "Status is required.", []⟩
  else
    match alookup s.globalApps id with
    | none => ⟨s, .serverError "Error updating application status", [.updateGlobal id]⟩
    | some d =>
      let d1 : LoanDoc :=
        { d with status := status, repayment := some (jsOr repayment .vNull) }
      let s1 : Store := { s with globalApps := aset s.globalApps id d1 }
      match alookup s1.globalApps id with
      | none => ⟨s1, .okMsg (okStatusMsg id status), [.updateGlobal id, .readGlobal id]⟩
      | some g =>
        if g.userId.truthy then
          match g.userId with
          | .vStr u =>
            match alookup s1.userApps (u, id) with
            | none =>
              ⟨s1, .serverError "Error updating application status",
                [.updateGlobal id, .readGlobal id, .updateUser u id]⟩
            | some du =>
              let du1 : LoanDoc :=
                { du with status := status, repayment := some (jsOr repayment .vNull) }
              ⟨{ s1 with userApps := aset s1.userApps (u, id) du1 },
                .okMsg (okStatusMsg id status),
                [.updateGlobal id, .readGlobal id, .updateUser u id]⟩
          | _ =>
            ⟨s1, .serverError "Error updating application status",
              [.updateGlobal id, .readGlobal id]⟩
        else ⟨s1, .okMsg (okStatusMsg id status), [.updateGlobal id, .readGlobal id]⟩

/-- PUT /api/admin/applications/:id/status including `verifyToken`. -/
def updateStatusRoute (verify : String → Option String)
    (authHeader : Option String) (id : String) (status repayment : JSVal)
    (s : Store) : Store × Response :=
  withAuth verify
    (fun _uid st =>
      let r := updateStatus st id status repayment
      (r.store, r.resp))
    authHeader s

/-- Equality of all fields shared by the per-user and global copies,
i.e. every field except the global-only inline `applicationId`. -/
def sharedFieldsEq (a b : LoanDoc) : Prop :=
  a.userId = b.userId ∧ a.loanType = b.loanType ∧ a.purpose = b.purpose ∧
  a.panNumber = b.panNumber ∧ a.requestedLoanAmount = b.requestedLoanAmount ∧
  a.monthlyEmi = b.monthlyEmi ∧ a.totalInterest = b.totalInterest ∧
  a.principalAmount = b.principalAmount ∧
  a.totalAmountPayable = b.totalAmountPayable ∧
  a.idProofFileName = b.idProofFileName ∧ a.status = b.status ∧
  a.repayment = b.repayment ∧ a.appliedDate = b.appliedDate

instance (a b : LoanDoc) : Decidable (sharedFieldsEq a b) := by
  unfold sharedFieldsEq; infer_instance

/-- Equality of the shared fields other than the creation timestamp. -/
def sharedFieldsEqExceptDate (a b : LoanDoc) : Prop :=
  a.userId = b.userId ∧ a.loanType = b.loanType ∧ a.purpose = b.purpose ∧
  a.panNumber = b.panNumber ∧ a.requestedLoanAmount = b.requestedLoanAmount ∧
  a.monthlyEmi = b.monthlyEmi ∧ a.totalInterest = b.totalInterest ∧
  a.principalAmount = b.principalAmount ∧
  a.totalAmountPayable = b.totalAmountPayable ∧
  a.idProofFileName = b.idProofFileName ∧ a.status = b.status ∧
  a.repayment = b.repayment

instance (a b : LoanDoc) : Decidable (sharedFieldsEqExceptDate a b) := by
  unfold sharedFieldsEqExceptDate; infer_instance

/-- Whether both copies of an application exist and agree on every shared
field; `none` when one copy is missing. -/
def copiesShareAllFields (s : Store) (uid id : String) : Option Bool :=
  match alookup s.userApps (uid, id), alookup s.globalApps id with
  | some ud, some gd => some (decide (sharedFieldsEq ud gd))
  | _, _ => none

/-- The owning user id the status-update handler can recover from the global
copy: the `appData.userId` truthiness check followed by `.doc()` needing a
string path.  `none` means the user-scoped copy cannot be addressed. -/
def recoverableUserId (d : LoanDoc) : Option String :=
  match d.userId with
  | .vStr u => if u = "" then none else some u
  | _ => none

/-- Frame condition: the new document differs from the old one in at most
the `status` and `repayment` fields. -/
def onlyStatusRepaymentChanged (old new : LoanDoc) : Prop :=
  new.userId = old.userId ∧ new.loanType = old.loanType ∧
  new.purpose = old.purpose ∧ new.panNumber = old.panNumber ∧
  new.requestedLoanAmount = old.requestedLoanAmount ∧
  new.monthlyEmi = old.monthlyEmi ∧ new.totalInterest = old.totalInterest ∧
  new.principalAmount = old.principalAmount ∧
  new.totalAmountPayable = old.totalAmountPayable ∧
  new.idProofFileName = old.idProofFileName ∧
  new.appliedDate = old.appliedDate ∧ new.applicationId = old.applicationId

instance (a b : LoanDoc) : Decidable (onlyStatusRepaymentChanged a b) := by
  unfold onlyStatusRepaymentChanged; infer_instance

theorem alookup_aset_self {α β : Type} [DecidableEq α]
    (l : List (α × β)) (k : α) (v : β) : alookup (aset l k v) k = some v := by
  induction l with
  | nil => simp [aset, alookup]
  | cons p t ih =>
    by_cases h : p.1 = k
    · simp [aset, alookup, h]
    · simpa [aset, alookup, h] using ih

theorem alookup_aset_ne {α β : Type} [DecidableEq α]
    (l : List (α × β)) (k k' : α) (v : β) (h : k' ≠ k) :
    alookup (aset l k v) k' = alookup l k' := by
  induction l with
  | nil => simp [aset, alookup, Ne.symm h]
  | cons p t ih =>
    by_cases h1 : p.1 = k
    · subst h1
      simp [aset, alookup, Ne.symm h]
    · simp [aset, alookup, h1, ih]

/-! ### Concrete fixtures used by witnesses and counterexamples -/

/-- The empty initial state. -/
def store0 : Store :=
  { authUsers := [], userProfiles := [], userApps := [], globalApps := [],
    nextId := 0, clock := 0 }

/-- A freshly created per-user loan document for user `u1`. -/
def doc0 : LoanDoc :=
  { userId := .vStr "u1", loanType := .vStr "Personal",
    purpose := .vStr "Medical", panNumber := .vStr "ABCDE1234F",
    requestedLoanAmount := .vNum 50000, monthlyEmi := .vNum 1000,
    totalInterest := .vNum 500, principalAmount := .vNum 50000,
    totalAmountPayable := .vNum 50500, idProofFileName := .vStr "pan.png",
    status := .vStr "Pending", appliedDate := 0, repayment := none,
    applicationId := none }

/-- The matching global copy of `doc0`, stored under id `a1`. -/
def gdoc0 : LoanDoc := { doc0 with appliedDate := 1, applicationId := some "a1" }

/-- A state holding one application `a1` of user `u1`, in both copies. -/
def store1 : Store :=
  { store0 with
    userApps := [(("u1", "a1"), doc0)],
    globalApps := [("a1", gdoc0)] }

/-- A valid apply-loan request body; it also carries a (ignored) `status`. -/
def body0 : ApplyBody :=
  { loanType := .vStr "Personal", purpose := .vStr "Medical",
    panNumber := .vStr "ABCDE1234F", requestedLoanAmount := .vNum 50000,
    monthlyEmi := .vNum 1000, totalInterest := .vNum 500,
    principalAmount := .vNum 50000, totalAmountPayable := .vNum 50500,
    idProofFileName := .vStr "pan.png", status := .vStr "Approved" }

/-- An identity-provider stub accepting exactly the token `tok1` as `u1`. -/
def verify1 : String → Option String :=
  fun tk => if tk = "tok1" then some "u1" else none

/-- An identity-provider stub rejecting every token. -/
def verifyNone : String → Option String := fun _ => none

/-! ### Helper lemmas -/

theorem recoverableUserId_eq {d : LoanDoc} {u : String}
    (h : recoverableUserId d = some u) : d.userId = .vStr u ∧ u ≠ "" := by
  unfold recoverableUserId at h
  rcases hdu : d.userId with _ | _ | b | n | u'
  all_goals rw [hdu] at h
  all_goals simp at h
  by_cases he : u' = ""
  · simp [he] at h
  · simp [he] at h
    exact ⟨h ▸ rfl, h ▸ he⟩

/-- The global collection after a status update: either untouched (missing
status or missing document), or the document at `id` overwritten with the
new status and the coerced repayment. -/
theorem updateStatus_globalApps_cases (s : Store) (id : String) (st rp : JSVal) :
    (updateStatus s id st rp).store.globalApps = s.globalApps ∨
    ∃ d, alookup s.globalApps id = some d ∧
      (updateStatus s id st rp).store.globalApps
        = aset s.globalApps id
            { d with status := st, repayment := some (jsOr rp .vNull) } := by
  cases hst : st.truthy
  · left; simp [updateStatus, hst]
  · cases hg : alookup s.globalApps id with
    | none => left; simp [updateStatus, hst, hg]
    | some d =>
      right
      refine ⟨d, rfl, ?_⟩
      simp only [updateStatus, hst, Bool.not_true, Bool.false_eq_true, if_false, hg,
        alookup_aset_self]
      split
      · split
        · split <;> rfl
        · rfl
      · rfl

/-- The per-user collections after a status update: either untouched, or the
owner's document at `id` overwritten with the new status and the coerced
repayment. -/
theorem updateStatus_userApps_cases (s : Store) (id : String) (st rp : JSVal) :
    (updateStatus s id st rp).store.userApps = s.userApps ∨
    ∃ u du, alookup s.userApps (u, id) = some du ∧
      (updateStatus s id st rp).store.userApps
        = aset s.userApps (u, id)
            { du with status := st, repayment := some (jsOr rp .vNull) } := by
  cases hst : st.truthy
  · left; simp [updateStatus, hst]
  · cases hg : alookup s.globalApps id with
    | none => left; simp [updateStatus, hst, hg]
    | some d =>
      simp only [updateStatus, hst, Bool.not_true, Bool.false_eq_true, if_false, hg,
        alookup_aset_self]
      split
      · split
        · rename_i u heq
          cases hau : alookup s.userApps (u, id) with
          | none => left; simp [hau]
          | some du => right; exact ⟨u, du, hau, by simp [hau]⟩
        · left; rfl
      · left; rfl

/-! ### Claim C1 -/

/-- Claim C1, as stated, is false: after a valid apply-loan submission with
a verified token both copies exist under the generated id `app-0`, but the
shared-field equality fails, because each of the two sequential writes
resolves its own serverTimestamp sentinel — the per-user copy gets commit
time 0 and the global copy commit time 1. -/
theorem create_shared_fields_counterexample :
    (applyLoanRoute verify1 (some "Bearer tok1") body0 store0).2
      = .created "Loan application submitted successfully!" "app-0" ∧
    copiesShareAllFields (applyLoanRoute verify1 (some "Bearer tok1") body0 store0).1
      "u1" "app-0" = some false ∧
    (alookup (applyLoanRoute verify1 (some "Bearer tok1") body0 store0).1.userApps
        ("u1", "app-0")).map LoanDoc.appliedDate = some 0 ∧
    (alookup (applyLoanRoute verify1 (some "Bearer tok1") body0 store0).1.globalApps
        "app-0").map LoanDoc.appliedDate = some 1 := by
  decide

/-- Claim C1 (amended): for every valid apply-loan submission with a
verified token, create writes two documents keyed by the same generated
applicationId, all shared fields other than appliedDate are equal between
the two copies immediately after creation, the global copy additionally
stores the id inline as applicationId, and the appliedDate fields hold the
store commit times of the two sequential writes (per-user first, global
second). -/
theorem create_dual_write_except_appliedDate (verify : String → Option String)
    (authHeader : Option String) (tk uid : String) (body : ApplyBody) (s : Store)
    (htk : extractToken authHeader = some tk) (hne : tk ≠ "")
    (hv : verify tk = some uid)
    (h1 : body.loanType.truthy = true) (h2 : body.purpose.truthy = true)
    (h3 : body.panNumber.truthy = true) (h4 : body.requestedLoanAmount.truthy = true) :
    (applyLoanRoute verify authHeader body s).2
      = .created "Loan application submitted successfully!" ("app-" ++ toString s.nextId) ∧
    ∃ ud gd,
      alookup (applyLoanRoute verify authHeader body s).1.userApps
          (uid, "app-" ++ toString s.nextId) = some ud ∧
      alookup (applyLoanRoute verify authHeader body s).1.globalApps
          ("app-" ++ toString s.nextId) = some gd ∧
      sharedFieldsEqExceptDate ud gd ∧
      gd.applicationId = some ("app-" ++ toString s.nextId) ∧
      ud.applicationId = none ∧ ud.appliedDate = s.clock ∧ gd.appliedDate = s.clock + 1 := by
  simp only [applyLoanRoute, withAuth, htk, hne, hv, if_neg, if_false]
  simp only [applyLoanHandler, h1, h2, h3, h4, Bool.not_true, Bool.false_or, Bool.or_self,
    if_false]
  refine ⟨rfl, _, _, alookup_aset_self .., alookup_aset_self .., ?_, rfl, rfl, rfl, rfl⟩
  exact ⟨rfl, rfl, rfl, rfl, rfl, rfl, rfl, rfl, rfl, rfl, rfl, rfl⟩

/-- Claim C1 (amended) instantiated on a concrete submission. -/
theorem create_dual_write_except_appliedDate_witness :
    (applyLoanRoute verify1 (some "Bearer tok1") body0 store0).2
      = .created "Loan application submitted successfully!" ("app-" ++ toString store0.nextId) ∧
    ∃ ud gd,
      alookup (applyLoanRoute verify1 (some "Bearer tok1") body0 store0).1.userApps
          ("u1", "app-" ++ toString store0.nextId) = some ud ∧
      alookup (applyLoanRoute verify1 (some "Bearer tok1") body0 store0).1.globalApps
          ("app-" ++ toString store0.nextId) = some gd ∧
      sharedFieldsEqExceptDate ud gd ∧
      gd.applicationId = some ("app-" ++ toString store0.nextId) ∧
      ud.applicationId = none ∧ ud.appliedDate = store0.clock ∧
      gd.appliedDate = store0.clock + 1 :=
  create_dual_write_except_appliedDate verify1 (some "Bearer tok1") "tok1" "u1" body0 store0
    (by decide) (by decide) (by decide) (by decide) (by decide) (by decide) (by decide)

/-! ### Claim C2 -/

/-- Claim C2: for every updateStatus call on an existing applicationId whose
global copy holds a recoverable owning userId, after the call returns
success the per-user copy and the global copy hold the same status value
and the same repayment value (and both equal the written values). -/
theorem updateStatus_copies_synced (s : Store) (id : String) (st rp : JSVal)
    (d : LoanDoc) (u : String)
    (hd : alookup s.globalApps id = some d)
    (hu : recoverableUserId d = some u)
    (hok : (updateStatus s id st rp).resp.code = 200) :
    ∃ gd udoc,
      alookup (updateStatus s id st rp).store.globalApps id = some gd ∧
      alookup (updateStatus s id st rp).store.userApps (u, id) = some udoc ∧
      gd.status = udoc.status ∧ gd.repayment = udoc.repayment ∧
      gd.status = st ∧ gd.repayment = some (jsOr rp .vNull) := by
  obtain ⟨hvu, hune⟩ := recoverableUserId_eq hu
  have htu : (JSVal.vStr u).truthy = true := by simp [JSVal.truthy, hune]
  cases hst : st.truthy with
  | false => simp [updateStatus, hst, Response.code] at hok
  | true =>
    cases hau : alookup s.userApps (u, id) with
    | none =>
      simp [updateStatus, hst, hd, alookup_aset_self, hvu, htu, hau,
        Response.code] at hok
    | some du =>
      simp [updateStatus, hst, hd, alookup_aset_self, hvu, htu, hau]

/-- Claim C2 instantiated on a concrete approved application. -/
theorem updateStatus_copies_synced_witness :
    ∃ gd udoc,
      alookup (updateStatus store1 "a1" (JSVal.vStr "Approved")
          (JSVal.vStr "Paid")).store.globalApps "a1" = some gd ∧
      alookup (updateStatus store1 "a1" (JSVal.vStr "Approved")
          (JSVal.vStr "Paid")).store.userApps ("u1", "a1") = some udoc ∧
      gd.status = udoc.status ∧ gd.repayment = udoc.repayment ∧
      gd.status = JSVal.vStr "Approved" ∧
      gd.repayment = some (jsOr (JSVal.vStr "Paid") JSVal.vNull) :=
  updateStatus_copies_synced store1 "a1" (JSVal.vStr "Approved") (JSVal.vStr "Paid")
    gdoc0 "u1" (by decide) (by decide) (by decide)

/-! ### Claim C3 -/

/-- Claim C3, as stated, is false: within one updateStatus call the store
operations are sequential, but their order is update-global, then
read-global, then update-user — not read-global first as claimed. -/
theorem updateStatus_order_counterexample :
    (updateStatus store1 "a1" (JSVal.vStr "Approved") (JSVal.vStr "Paid")).trace
      = [.updateGlobal "a1", .readGlobal "a1", .updateUser "u1" "a1"] ∧
    (updateStatus store1 "a1" (JSVal.vStr "Approved") (JSVal.vStr "Paid")).trace
      ≠ [.readGlobal "a1", .updateGlobal "a1", .updateUser "u1" "a1"] := by
  decide

/-- Claim C3 (amended): within a single updateStatus call the store
operations occur strictly sequentially in this order: first update the
global copy's status/repayment fields, then read the global copy to
discover the owning userId, then, if an owning userId was found, update
the user-scoped copy's status/repayment fields. -/
theorem updateStatus_op_order (s : Store) (id : String) (st rp : JSVal)
    (d du : LoanDoc) (u : String)
    (hst : st.truthy = true)
    (hd : alookup s.globalApps id = some d)
    (hu : recoverableUserId d = some u)
    (hdu : alookup s.userApps (u, id) = some du) :
    (updateStatus s id st rp).trace
      = [.updateGlobal id, .readGlobal id, .updateUser u id] := by
  obtain ⟨hvu, hune⟩ := recoverableUserId_eq hu
  have htu : (JSVal.vStr u).truthy = true := by simp [JSVal.truthy, hune]
  simp only [updateStatus, hst, Bool.not_true, if_false]
  rw [hd]
  simp [alookup_aset_self, hvu, htu, hdu]

/-- Claim C3 (amended) instantiated on a concrete application. -/
theorem updateStatus_op_order_witness :
    (updateStatus store1 "a1" (JSVal.vStr "Approved") (JSVal.vStr "Paid")).trace
      = [.updateGlobal "a1", .readGlobal "a1", .updateUser "u1" "a1"] :=
  updateStatus_op_order store1 "a1" (JSVal.vStr "Approved") (JSVal.vStr "Paid")
    gdoc0 doc0 "u1" (by decide) (by decide) (by decide) (by decide)

/-! ### Claim C4 -/

/-- Claim C4: an updateStatus call whose applicationId has no global-copy
document creates no new document in either storage location (the whole
store is unchanged), does not crash, and returns an error response (400
when the status is also missing, otherwise the 500 surfaced from the failed
NOT_FOUND update). -/
theorem updateStatus_missing_id_no_create (s : Store) (id : String) (st rp : JSVal)
    (hnone : alookup s.globalApps id = none) :
    (updateStatus s id st rp).store = s ∧
    ((updateStatus s id st rp).resp.code = 400 ∨
      (updateStatus s id st rp).resp.code = 500) := by
  cases hst : st.truthy
  · simp [updateStatus, hst, Response.code]
  · simp [updateStatus, hst, hnone, Response.code]

/-- Claim C4 instantiated on an id absent from the global collection. -/
theorem updateStatus_missing_id_no_create_witness :
    (updateStatus store1 "zz" (JSVal.vStr "Approved") (JSVal.vStr "Paid")).store = store1 ∧
    ((updateStatus store1 "zz" (JSVal.vStr "Approved") (JSVal.vStr "Paid")).resp.code = 400 ∨
      (updateStatus store1 "zz" (JSVal.vStr "Approved") (JSVal.vStr "Paid")).resp.code = 500) :=
  updateStatus_missing_id_no_create store1 "zz" (JSVal.vStr "Approved") (JSVal.vStr "Paid")
    (by decide)

/-! ### Claim C5 -/

/-- Claim C5: when the global copy does not exist, or exists but holds no
recoverable owning userId, updateStatus leaves every user-scoped copy
untouched, and the response is one of the generic ones (400 validation,
the generic 500, or plain success) — no distinct partial-failure error is
reported for the unsynchronized user-scoped copy. -/
theorem updateStatus_silent_unsync (s : Store) (id : String) (st rp : JSVal)
    (h : alookup s.globalApps id = none ∨
      ∃ d, alookup s.globalApps id = some d ∧ recoverableUserId d = none) :
    (updateStatus s id st rp).store.userApps = s.userApps ∧
    ((updateStatus s id st rp).resp = .badRequest "Status is required." ∨
     (updateStatus s id st rp).resp = .serverError "Error updating application status" ∨
     (updateStatus s id st rp).resp = .okMsg (okStatusMsg id st)) := by
  cases hst : st.truthy
  · simp [updateStatus, hst]
  · rcases h with hnone | ⟨d, hd, hrec⟩
    · simp [updateStatus, hst, hnone]
    · unfold recoverableUserId at hrec
      rcases hdu : d.userId with _ | _ | b | n | u'
      all_goals rw [hdu] at hrec
      · have ht : (JSVal.vNull).truthy = false := rfl
        simp [updateStatus, hst, hd, alookup_aset_self, hdu, ht]
      · have ht : (JSVal.vUndefined).truthy = false := rfl
        simp [updateStatus, hst, hd, alookup_aset_self, hdu, ht]
      · cases b
        · have ht : (JSVal.vBool false).truthy = false := rfl
          simp [updateStatus, hst, hd, alookup_aset_self, hdu, ht]
        · have ht : (JSVal.vBool true).truthy = true := rfl
          simp [updateStatus, hst, hd, alookup_aset_self, hdu, ht]
      · by_cases hn : n = 0
        · have ht : (JSVal.vNum n).truthy = false := by simp [JSVal.truthy, hn]
          simp [updateStatus, hst, hd, alookup_aset_self, hdu, ht]
        · have ht : (JSVal.vNum n).truthy = true := by simp [JSVal.truthy, hn]
          simp [updateStatus, hst, hd, alookup_aset_self, hdu, ht]
      · have hu0 : u' = "" := by
          by_cases he : u' = ""
          · exact he
          · simp [he] at hrec
        subst hu0
        have ht : (JSVal.vStr "").truthy = false := rfl
        simp [updateStatus, hst, hd, alookup_aset_self, hdu, ht]

/-- Claim C5 instantiated on an id absent from the global collection. -/
theorem updateStatus_silent_unsync_witness :
    (updateStatus store1 "zz" (JSVal.vStr "Approved") JSVal.vUndefined).store.userApps
      = store1.userApps ∧
    ((updateStatus store1 "zz" (JSVal.vStr "Approved") JSVal.vUndefined).resp
        = .badRequest "Status is required." ∨
     (updateStatus store1 "zz" (JSVal.vStr "Approved") JSVal.vUndefined).resp
        = .serverError "Error updating application status" ∨
     (updateStatus store1 "zz" (JSVal.vStr "Approved") JSVal.vUndefined).resp
        = .okMsg (okStatusMsg "zz" (JSVal.vStr "Approved"))) :=
  updateStatus_silent_unsync store1 "zz" (JSVal.vStr "Approved") JSVal.vUndefined
    (Or.inl (by decide))

/-! ### Claim C6 -/

/-- Claim C6: for every successful create, the status written to both the
user-scoped document and the global document is exactly Pending; the body
is arbitrary, including any status value a client may have submitted,
which the handler never destructures. -/
theorem create_status_forced_pending (body : ApplyBody) (uid : String) (s : Store)
    (h1 : body.loanType.truthy = true) (h2 : body.purpose.truthy = true)
    (h3 : body.panNumber.truthy = true) (h4 : body.requestedLoanAmount.truthy = true) :
    (alookup (applyLoanHandler body uid s).1.userApps
        (uid, "app-" ++ toString s.nextId)).map LoanDoc.status
      = some (.vStr "Pending") ∧
    (alookup (applyLoanHandler body uid s).1.globalApps
        ("app-" ++ toString s.nextId)).map LoanDoc.status
      = some (.vStr "Pending") := by
  simp [applyLoanHandler, h1, h2, h3, h4, alookup_aset_self]

/-- Claim C6 instantiated on a body that submits status Approved, which is
ignored: both copies are created Pending. -/
theorem create_status_forced_pending_witness :
    (alookup (applyLoanHandler body0 "u1" store0).1.userApps
        ("u1", "app-" ++ toString store0.nextId)).map LoanDoc.status
      = some (.vStr "Pending") ∧
    (alookup (applyLoanHandler body0 "u1" store0).1.globalApps
        ("app-" ++ toString store0.nextId)).map LoanDoc.status
      = some (.vStr "Pending") :=
  create_status_forced_pending body0 "u1" store0
    (by decide) (by decide) (by decide) (by decide)

/-! ### Claim C7 -/

/-- Claim C7: for every request to a protected endpoint, whatever the
wrapped handler is: with no bearer token the response is 401 and the state
is returned untouched (the handler body never runs); with a token whose
verification fails, the error funnels through the generic handler as a 500
response — not 401/403 — and again the state is untouched, so no store
writes occur. -/
theorem auth_failure_responses (verify : String → Option String)
    (handler : String → Store → Store × Response)
    (authHeader : Option String) (s : Store) :
    ((extractToken authHeader = none ∨ extractToken authHeader = some "") →
      withAuth verify handler authHeader s = (s, .unauthorized "No token provided.")) ∧
    (∀ tk, extractToken authHeader = some tk → tk ≠ "" → verify tk = none →
      withAuth verify handler authHeader s = (s, .serverError "Invalid or expired token.")) ∧
    Response.code (.unauthorized "No token provided.") = 401 ∧
    Response.code (.serverError "Invalid or expired token.") = 500 := by
  refine ⟨?_, ?_, rfl, rfl⟩
  · rintro (h | h) <;> simp [withAuth, h]
  · intro tk htk hne hv
    simp [withAuth, htk, hne, hv]

/-- Claim C7 instantiated with the apply-loan handler: a missing header
yields 401 and a rejected token yields 500, with the store untouched. -/
theorem auth_failure_responses_witness :
    withAuth verifyNone (applyLoanHandler body0) none store0
      = (store0, .unauthorized "No token provided.") ∧
    withAuth verifyNone (applyLoanHandler body0) (some "Bearer t") store0
      = (store0, .serverError "Invalid or expired token.") :=
  ⟨(auth_failure_responses verifyNone (applyLoanHandler body0) none store0).1
      (Or.inl (by decide)),
   (auth_failure_responses verifyNone (applyLoanHandler body0) (some "Bearer t") store0).2.1
      "t" (by decide) (by decide) rfl⟩

/-! ### Claim C8 -/

/-- Claim C8: a signup missing email, password, or mobile, an apply-loan
missing loanType, purpose, panNumber, or requestedLoanAmount, and a status
update missing status are all rejected with 400, with no identity-provider
or document-store operation performed and the state unchanged (for the
status update, the issued-operation trace is empty). -/
theorem missing_field_rejected_400 (s : Store) (sb : SignupBody) (ab : ApplyBody)
    (uid id : String) (st rp : JSVal) :
    ((sb.email = .vUndefined ∨ sb.password = .vUndefined ∨ sb.mobile = .vUndefined) →
      signup sb s = (s, .badRequest "Email, password, and mobile are required.")) ∧
    ((ab.loanType = .vUndefined ∨ ab.purpose = .vUndefined ∨ ab.panNumber = .vUndefined ∨
        ab.requestedLoanAmount = .vUndefined) →
      applyLoanHandler ab uid s = (s, .badRequest "Missing required loan application fields.")) ∧
    (st = .vUndefined →
      updateStatus s id st rp = ⟨s, .badRequest "Status is required.", []⟩) := by
  refine ⟨?_, ?_, ?_⟩
  · rintro (h | h | h) <;> simp [signup, h, JSVal.truthy]
  · rintro (h | h | h | h) <;> simp [applyLoanHandler, h, JSVal.truthy]
  · intro h
    subst h
    simp [updateStatus, JSVal.truthy]

/-- Claim C8 instantiated: one missing field per endpoint. -/
theorem missing_field_rejected_400_witness :
    signup { email := .vUndefined, password := .vStr "pw", mobile := .vStr "99" } store0
      = (store0, .badRequest "Email, password, and mobile are required.") ∧
    applyLoanHandler { body0 with panNumber := .vUndefined } "u1" store0
      = (store0, .badRequest "Missing required loan application fields.") ∧
    updateStatus store1 "a1" JSVal.vUndefined (JSVal.vStr "Paid")
      = ⟨store1, .badRequest "Status is required.", []⟩ :=
  ⟨(missing_field_rejected_400 store0
      { email := .vUndefined, password := .vStr "pw", mobile := .vStr "99" }
      body0 "u1" "a1" JSVal.vUndefined (JSVal.vStr "Paid")).1 (Or.inl rfl),
   (missing_field_rejected_400 store0
      { email := .vUndefined, password := .vStr "pw", mobile := .vStr "99" }
      { body0 with panNumber := .vUndefined } "u1" "a1" JSVal.vUndefined
      (JSVal.vStr "Paid")).2.1 (Or.inr (Or.inr (Or.inl rfl))),
   (missing_field_rejected_400 store1
      { email := .vUndefined, password := .vStr "pw", mobile := .vStr "99" }
      body0 "u1" "a1" JSVal.vUndefined (JSVal.vStr "Paid")).2.2 rfl⟩

/-! ### Claim C9 -/

/-- Claim C9: updateStatus modifies only the status and repayment fields of
each LoanApplication copy — for the global document at the id and for any
user-scoped document at the id, every other field (userId, loanType,
purpose, panNumber, amounts, idProofFileName, appliedDate, applicationId)
is unchanged by the operation. -/
theorem updateStatus_frame (s : Store) (id : String) (st rp : JSVal) :
    (∀ d d', alookup s.globalApps id = some d →
      alookup (updateStatus s id st rp).store.globalApps id = some d' →
      onlyStatusRepaymentChanged d d') ∧
    (∀ u d d', alookup s.userApps (u, id) = some d →
      alookup (updateStatus s id st rp).store.userApps (u, id) = some d' →
      onlyStatusRepaymentChanged d d') := by
  constructor
  · intro d d' hpre hpost
    rcases updateStatus_globalApps_cases s id st rp with heq | ⟨d0, hd0, heq⟩
    · rw [heq, hpre] at hpost
      simp only [Option.some.injEq] at hpost
      subst hpost
      simp [onlyStatusRepaymentChanged]
    · rw [hd0] at hpre
      simp only [Option.some.injEq] at hpre
      subst hpre
      rw [heq, alookup_aset_self] at hpost
      simp only [Option.some.injEq] at hpost
      subst hpost
      simp [onlyStatusRepaymentChanged]
  · intro u d d' hpre hpost
    rcases updateStatus_userApps_cases s id st rp with heq | ⟨u0, du, hdu, heq⟩
    · rw [heq, hpre] at hpost
      simp only [Option.some.injEq] at hpost
      subst hpost
      simp [onlyStatusRepaymentChanged]
    · by_cases hu : u = u0
      · subst hu
        rw [hdu] at hpre
        simp only [Option.some.injEq] at hpre
        subst hpre
        rw [heq, alookup_aset_self] at hpost
        simp only [Option.some.injEq] at hpost
        subst hpost
        simp [onlyStatusRepaymentChanged]
      · rw [heq, alookup_aset_ne _ _ _ _ (by simp [hu]), hpre] at hpost
        simp only [Option.some.injEq] at hpost
        subst hpost
        simp [onlyStatusRepaymentChanged]

/-- Claim C9 instantiated on the concrete global copy: only status and
repayment change. -/
theorem updateStatus_frame_witness :
    onlyStatusRepaymentChanged gdoc0
      { gdoc0 with
        status := JSVal.vStr "Approved"
        repayment := some (jsOr (JSVal.vStr "Paid") JSVal.vNull) } :=
  (updateStatus_frame store1 "a1" (JSVal.vStr "Approved") (JSVal.vStr "Paid")).1
    gdoc0
    { gdoc0 with
      status := JSVal.vStr "Approved"
      repayment := some (jsOr (JSVal.vStr "Paid") JSVal.vNull) }
    (by decide) (by decide)

/-! ### Claim C10 -/

/-- Claim C10: updateStatus validates status only for non-emptiness, not
membership in the Pending/Approved/Rejected enum — any non-empty status
string succeeds on an existing application and is written verbatim to both
copies, and a falsy repayment is coerced to null in both copies. -/
theorem updateStatus_no_enum_validation (s : Store) (id stS : String) (rp : JSVal)
    (d du : LoanDoc) (u : String)
    (hS : stS ≠ "") (hrp : rp.truthy = false)
    (hd : alookup s.globalApps id = some d)
    (hu : recoverableUserId d = some u)
    (hau : alookup s.userApps (u, id) = some du) :
    (updateStatus s id (.vStr stS) rp).resp = .okMsg (okStatusMsg id (.vStr stS)) ∧
    (alookup (updateStatus s id (.vStr stS) rp).store.globalApps id).map LoanDoc.status
      = some (.vStr stS) ∧
    (alookup (updateStatus s id (.vStr stS) rp).store.userApps (u, id)).map LoanDoc.status
      = some (.vStr stS) ∧
    (alookup (updateStatus s id (.vStr stS) rp).store.globalApps id).map LoanDoc.repayment
      = some (some .vNull) ∧
    (alookup (updateStatus s id (.vStr stS) rp).store.userApps (u, id)).map LoanDoc.repayment
      = some (some .vNull) := by
  obtain ⟨hvu, hune⟩ := recoverableUserId_eq hu
  have hst : (JSVal.vStr stS).truthy = true := by simp [JSVal.truthy, hS]
  have htu : (JSVal.vStr u).truthy = true := by simp [JSVal.truthy, hune]
  have hor : jsOr rp .vNull = .vNull := by simp [jsOr, hrp]
  simp [updateStatus, hst, hd, alookup_aset_self, hvu, htu, hau, hor]

/-- Claim C10 instantiated with the out-of-enum status Banana and an
empty-string (falsy) repayment. -/
theorem updateStatus_no_enum_validation_witness :
    (updateStatus store1 "a1" (.vStr "Banana") (JSVal.vStr "")).resp
      = .okMsg (okStatusMsg "a1" (.vStr "Banana")) ∧
    (alookup (updateStatus store1 "a1" (.vStr "Banana")
        (JSVal.vStr "")).store.globalApps "a1").map LoanDoc.status
      = some (.vStr "Banana") ∧
    (alookup (updateStatus store1 "a1" (.vStr "Banana")
        (JSVal.vStr "")).store.userApps ("u1", "a1")).map LoanDoc.status
      = some (.vStr "Banana") ∧
    (alookup (updateStatus store1 "a1" (.vStr "Banana")
        (JSVal.vStr "")).store.globalApps "a1").map LoanDoc.repayment
      = some (some .vNull) ∧
    (alookup (updateStatus store1 "a1" (.vStr "Banana")
        (JSVal.vStr "")).store.userApps ("u1", "a1")).map LoanDoc.repayment
      = some (some .vNull) :=
  updateStatus_no_enum_validation store1 "a1" "Banana" (JSVal.vStr "") gdoc0 doc0 "u1"
    (by decide) (by decide) (by decide) (by decide) (by decide)

end GLoan
